import Mathlib

/-!
# Verification of `ccproxy/formatters/anthropic_streaming.py`

A shallow embedding of the Anthropic-format SSE streaming module:
the pure formatter functions (`StreamingFormatter.*`) are modelled as
string-producing Lean functions over a small JSON value type, and the
async generator `stream_claude_response` is modelled as a function from
an explicit description of the upstream async iterable (the chunks it
yields followed by how it terminates) to the list of emitted frames and
the final control outcome observed by the caller.
-/

/-- A JSON value, as produced by the dict literals in the source module.
Object fields keep insertion order, as Python dicts do. -/
inductive Json where
  | null : Json
  | bool (b : Bool) : Json
  | num (n : Int) : Json
  | str (s : String) : Json
  | arr (xs : List Json) : Json
  | obj (fields : List (String × Json)) : Json

/-- Lowercase hexadecimal digit, as used by `json.dumps` in `\uXXXX` escapes. -/
def hexDigit (n : Nat) : Char :=
  if n < 10 then Char.ofNat (48 + n) else Char.ofNat (87 + n)

/-- Four lowercase hex digits. -/
def hex4 (n : Nat) : String :=
  String.mk [hexDigit (n / 4096 % 16), hexDigit (n / 256 % 16),
             hexDigit (n / 16 % 16), hexDigit (n % 16)]

/-- One character of a JSON string literal, following CPython's
`json.dumps` with its default `ensure_ascii=True`: backslash, quote and
everything outside the printable ASCII range `0x20`-`0x7e` is escaped;
astral characters become a surrogate pair. -/
def escapeJsonChar (c : Char) : String :=
  if c = '"' then "\\\""
  else if c = '\\' then "\\\\"
  else if c = '\n' then "\\n"
  else if c = '\t' then "\\t"
  else if c = '\r' then "\\r"
  else if c.toNat = 8 then "\\b"
  else if c.toNat = 12 then "\\f"
  else if c.toNat < 32 then "\\u" ++ hex4 c.toNat
  else if c.toNat < 127 then String.singleton c
  else if c.toNat < 65536 then "\\u" ++ hex4 c.toNat
  else
    "\\u" ++ hex4 (55296 + (c.toNat - 65536) / 1024)
      ++ "\\u" ++ hex4 (56320 + (c.toNat - 65536) % 1024)

/-- Body of a JSON string literal. -/
def escapeJsonString (s : String) : String :=
  s.data.foldl (fun acc c => acc ++ escapeJsonChar c) ""

mutual

/-- `json.dumps(v, separators=(",", ":"))`: compact serialization with no
whitespace, fields in insertion order. -/
def serializeJson : Json → String
  | .null => "null"
  | .bool true => "true"
  | .bool false => "false"
  | .num n => toString n
  | .str s => "\"" ++ escapeJsonString s ++ "\""
  | .arr xs => "[" ++ serializeJsonList xs ++ "]"
  | .obj fs => "\x7b" ++ serializeJsonFields fs ++ "\x7d"

/-- Comma-separated serialization of array elements. -/
def serializeJsonList : List Json → String
  | [] => ""
  | [x] => serializeJson x
  | x :: y :: xs => serializeJson x ++ "," ++ serializeJsonList (y :: xs)

/-- Comma-separated serialization of object fields, `"key":value`. -/
def serializeJsonFields : List (String × Json) → String
  | [] => ""
  | [(k, v)] => "\"" ++ escapeJsonString k ++ "\":" ++ serializeJson v
  | (k, v) :: f :: fs =>
      "\"" ++ escapeJsonString k ++ "\":" ++ serializeJson v ++ ","
        ++ serializeJsonFields (f :: fs)

end

namespace StreamingFormatter

/-- `StreamingFormatter.format_event`: wrap compact JSON as an SSE frame
with an explicit event type. -/
def format_event (event_type : String) (data : Json) : String :=
  "event: " ++ event_type ++ "\ndata: " ++ serializeJson data ++ "\n\n"

/-- `data.get("type", "unknown")` on the payload dictionaries built in this
module: every `type` field the module ever stores is a string, so a
present non-string value cannot occur and maps to the same default. -/
def payloadEventType : Json → String
  | .obj fields =>
      match fields.lookup "type" with
      | some (.str s) => s
      | _ => "unknown"
  | _ => "unknown"

/-- `StreamingFormatter.format_data_only`: despite the name, it emits an
`event:` line whose type is read from the payload's `type` field,
defaulting to `"unknown"` when absent. -/
def format_data_only (data : Json) : String :=
  format_event (payloadEventType data) data

/-- Payload of `format_message_start`. -/
def messageStartData (message_id model role : String) : Json :=
  .obj [("type", .str "message_start"),
        ("message", .obj
          [("id", .str message_id),
           ("type", .str "message"),
           ("role", .str role),
           ("content", .arr []),
           ("model", .str model),
           ("stop_reason", .null),
           ("stop_sequence", .null),
           ("usage", .obj [("input_tokens", .num 0), ("output_tokens", .num 0)])])]

/-- `StreamingFormatter.format_message_start` (the Python default
`role="assistant"` is passed explicitly by `renderFrame` below). -/
def format_message_start (message_id model role : String) : String :=
  format_data_only (messageStartData message_id model role)

/-- Payload of `format_content_block_start`. -/
def contentBlockStartData (index : Int) : Json :=
  .obj [("type", .str "content_block_start"),
        ("index", .num index),
        ("content_block", .obj [("type", .str "text"), ("text", .str "")])]

/-- `StreamingFormatter.format_content_block_start`. -/
def format_content_block_start (index : Int) : String :=
  format_data_only (contentBlockStartData index)

/-- Payload of `format_content_block_delta`. -/
def contentBlockDeltaData (text : String) (index : Int) : Json :=
  .obj [("type", .str "content_block_delta"),
        ("index", .num index),
        ("delta", .obj [("type", .str "text_delta"), ("text", .str text)])]

/-- `StreamingFormatter.format_content_block_delta`. -/
def format_content_block_delta (text : String) (index : Int) : String :=
  format_data_only (contentBlockDeltaData text index)

/-- `StreamingFormatter.format_content_block_stop`. -/
def format_content_block_stop (index : Int) : String :=
  format_data_only (.obj [("type", .str "content_block_stop"), ("index", .num index)])

/-- Optional strings are serialized the way Python passes them to the
payload dict: `None` becomes JSON `null`. -/
def optionStr : Option String → Json
  | none => .null
  | some s => .str s

/-- Payload of `format_message_delta`. -/
def messageDeltaData (stop_reason : String) (stop_sequence : Option String) : Json :=
  .obj [("type", .str "message_delta"),
        ("delta", .obj [("stop_reason", .str stop_reason),
                        ("stop_sequence", optionStr stop_sequence)]),
        ("usage", .obj [("output_tokens", .num 0)])]

/-- `StreamingFormatter.format_message_delta`. -/
def format_message_delta (stop_reason : String) (stop_sequence : Option String) : String :=
  format_data_only (messageDeltaData stop_reason stop_sequence)

/-- `StreamingFormatter.format_message_stop`. -/
def format_message_stop : String :=
  format_data_only (.obj [("type", .str "message_stop")])

/-- Modelled from the spec: `StreamingError(error=ErrorDetail(type=..,
message=..)).model_dump()` comes from `ccproxy.models.errors`, which is not
part of the sources here; the spec fixes its shape as
`{"error":{"type":<errorType>,"message":<message>}}`, with no top-level
`type` key. -/
def streamingErrorDump (error_type message : String) : Json :=
  .obj [("error", .obj [("type", .str error_type), ("message", .str message)])]

/-- `StreamingFormatter.format_error`: the error payload is passed through
`format_data_only`. -/
def format_error (error_type message : String) : String :=
  format_data_only (streamingErrorDump error_type message)

/-- `StreamingFormatter.format_done`: the literal terminal sentinel. -/
def format_done : String :=
  "data: [DONE]\n\n"

end StreamingFormatter

/-- The `delta` sub-dictionary of an upstream chunk, restricted to the three
keys this module reads (`text`, `stop_reason`, `stop_sequence`); `none`
models an absent key, so `Option.getD` is Python's `dict.get` default. -/
structure ChunkDelta where
  text : Option String
  stop_reason : Option String
  stop_sequence : Option String
deriving DecidableEq, Repr

/-- An upstream chunk as observed by the drain loop: either not a `dict`
at all (logged and skipped), or a `dict` with an optional `type` key and an
optional `delta` sub-dictionary. -/
inductive Chunk where
  | nonDict : Chunk
  | dict (type : Option String) (delta : Option ChunkDelta) : Chunk
deriving DecidableEq, Repr

/-- `chunk.get("delta", {}).get("text", "")`. -/
def Chunk.deltaText : Chunk → String
  | .nonDict => ""
  | .dict _ d => ((d.bind ChunkDelta.text).getD "")

/-- `chunk.get("delta", {}).get("stop_reason", "end_turn")`. -/
def Chunk.deltaStopReason : Chunk → String
  | .nonDict => "end_turn"
  | .dict _ d => ((d.bind ChunkDelta.stop_reason).getD "end_turn")

/-- `chunk.get("delta", {}).get("stop_sequence")`. -/
def Chunk.deltaStopSequence : Chunk → Option String
  | .nonDict => none
  | .dict _ d => d.bind ChunkDelta.stop_sequence

/-- How the upstream async iterable terminates once the listed chunks are
exhausted: it stops normally, raises a non-cancellation exception carrying
message `e` (the `str(e)` the source logs and forwards), or raises
`asyncio.CancelledError`. -/
inductive UpstreamEnd where
  | exhausted : UpstreamEnd
  | error (e : String) : UpstreamEnd
  | cancelled : UpstreamEnd
deriving DecidableEq, Repr

/-- The argument passed as `claude_response_iterator`: either an object
without `__aiter__` (the type-guard branch) or an async iterable that
yields `chunks` in order and then terminates as `ending` says. -/
inductive StreamInput where
  | notAsyncIterable : StreamInput
  | upstream (chunks : List Chunk) (ending : UpstreamEnd) : StreamInput
deriving DecidableEq, Repr

/-- One emitted SSE frame, identified by which formatter call produced it
and with which arguments; `renderFrame` maps it to the exact wire string. -/
inductive Frame where
  | messageStart (message_id model : String) : Frame
  | contentBlockStart : Frame
  | contentBlockDelta (text : String) : Frame
  | contentBlockStop : Frame
  | messageDelta (stop_reason : String) (stop_sequence : Option String) : Frame
  | messageStop : Frame
  | errorFrame (error_type message : String) : Frame
  | done : Frame
deriving DecidableEq, Repr

/-- The exact wire string of a frame, via the formatter functions; the
Python default arguments (`role="assistant"`, `index=0`) appear here
explicitly because every call in `stream_claude_response` relies on them. -/
def renderFrame : Frame → String
  | .messageStart message_id model =>
      StreamingFormatter.format_message_start message_id model "assistant"
  | .contentBlockStart => StreamingFormatter.format_content_block_start 0
  | .contentBlockDelta text => StreamingFormatter.format_content_block_delta text 0
  | .contentBlockStop => StreamingFormatter.format_content_block_stop 0
  | .messageDelta r s => StreamingFormatter.format_message_delta r s
  | .messageStop => StreamingFormatter.format_message_stop
  | .errorFrame t m => StreamingFormatter.format_error t m
  | .done => StreamingFormatter.format_done

/-- What the caller of the generator observes after the last frame: normal
exhaustion, a propagated non-cancellation exception (with its `str`), or a
propagated `asyncio.CancelledError`. -/
inductive Outcome where
  | normal : Outcome
  | raised (e : String) : Outcome
  | cancelled : Outcome
deriving DecidableEq, Repr

/-- The closing triple emitted by the `if not has_content:` block after the
drain loop finishes: `format_message_delta()` with its Python defaults. -/
def defaultClose : List Frame :=
  [.contentBlockStop, .messageDelta "end_turn" none, .messageStop]

/-- The inner `async for` of `stream_claude_response` together with the
code that runs after it inside the same `try`, as a function of the
remaining chunks, the current `has_content` flag, and the upstream's
eventual termination.  Frames are those yielded from the loop onward
(excluding the two opening frames and the trailing `format_done`).

* a non-`dict` chunk is logged and skipped;
* a `content_block_delta` chunk with non-empty `delta.text` sets
  `has_content` and emits a delta frame;
* a `message_delta` chunk emits the stop/delta/stop closing frames and
  `break`s — after the `break` the `if not has_content:` block still runs,
  and the `ending` is never reached because iteration has stopped;
* on exhaustion the `if not has_content:` block runs;
* an upstream `CancelledError` is caught by the inner handler, which emits
  `content_block_stop` only when `has_content` is false, then the
  cancelled/stop frames, and re-raises; the outer handler re-raises again;
* any other upstream exception is caught by the inner handler, which emits
  the same shape with `stop_reason="error"` and re-raises — but the outer
  `except Exception` then swallows it and emits one error frame. -/
def drainLoop : List Chunk → Bool → UpstreamEnd → List Frame × Outcome
  | [], has_content, .exhausted =>
      (if has_content then [] else defaultClose, .normal)
  | [], has_content, .error e =>
      ((if has_content then [] else [.contentBlockStop])
        ++ [.messageDelta "error" none, .messageStop,
            .errorFrame "internal_server_error" e], .normal)
  | [], has_content, .cancelled =>
      ((if has_content then [] else [.contentBlockStop])
        ++ [.messageDelta "cancelled" none, .messageStop], .cancelled)
  | chunk :: rest, has_content, ending =>
      match chunk with
      | .nonDict => drainLoop rest has_content ending
      | .dict t d =>
        if t = some "content_block_delta" then
          let text := Chunk.deltaText (.dict t d)
          if text ≠ "" then
            let r := drainLoop rest true ending
            (.contentBlockDelta text :: r.1, r.2)
          else
            drainLoop rest has_content ending
        else if t = some "message_delta" then
          ([.contentBlockStop,
            .messageDelta (Chunk.deltaStopReason (.dict t d))
                          (Chunk.deltaStopSequence (.dict t d)),
            .messageStop]
            ++ (if has_content then [] else defaultClose), .normal)
        else
          drainLoop rest has_content ending

/-- `stream_claude_response(claude_response_iterator, message_id, model)`:
the full list of frames the async generator yields, in order, paired with
what the caller observes when pulling past the last frame.  The `finally`
block appends the done sentinel on every path, including while a
`CancelledError` is propagating. -/
def stream_claude_response : StreamInput → String → String → List Frame × Outcome
  | .notAsyncIterable, _, _ =>
      ([.errorFrame "internal_server_error" "Invalid response type from Claude client",
        .done], .normal)
  | .upstream chunks ending, message_id, model =>
      let r := drainLoop chunks false ending
      (.messageStart message_id model :: .contentBlockStart :: r.1 ++ [.done], r.2)

/-- The wire output: emitted frames rendered to their SSE strings. -/
def wireOutput (input : StreamInput) (message_id model : String) : List String :=
  (stream_claude_response input message_id model).1.map renderFrame

/-- The `async for ... yield chunk` forwarding loop of
`stream_anthropic_message_response`, frame by frame. -/
def forwardFrames : List Frame → List Frame
  | [] => []
  | f :: fs => f :: forwardFrames fs

/-- `stream_anthropic_message_response`: delegates to
`stream_claude_response` and re-yields every frame; exceptions from the
inner generator propagate unchanged through the forwarding loop. -/
def stream_anthropic_message_response
    (input : StreamInput) (message_id model : String) : List Frame × Outcome :=
  let r := stream_claude_response input message_id model
  (forwardFrames r.1, r.2)

/-- Whether a chunk's `type` key holds `"message_delta"`, i.e. whether the
drain loop `break`s on it. -/
def Chunk.isMessageDeltaType : Chunk → Bool
  | .nonDict => false
  | .dict t _ => t == some "message_delta"

/-- `true` when no chunk of the list triggers the `message_delta` branch,
so the drain loop consumes the whole list and then observes the upstream's
termination. -/
def hasNoMessageDelta (cs : List Chunk) : Bool :=
  cs.all fun c => !c.isMessageDeltaType

/-- The texts of the `content_block_delta` frames the drain loop emits
while consuming `cs` (structured to mirror the loop: non-`dict` chunks,
other chunk types, and empty extracted texts contribute nothing). -/
def emittedDeltaTexts : List Chunk → List String
  | [] => []
  | c :: rest =>
    match c with
    | .nonDict => emittedDeltaTexts rest
    | .dict t d =>
      if t = some "content_block_delta" then
        if Chunk.deltaText (.dict t d) ≠ "" then
          Chunk.deltaText (.dict t d) :: emittedDeltaTexts rest
        else
          emittedDeltaTexts rest
      else
        emittedDeltaTexts rest

/-- The frames emitted after the drain loop consumed every chunk without
`break`ing, as a function of the final `has_content` flag and the
upstream's termination. -/
def endingTail (has_content : Bool) : UpstreamEnd → List Frame
  | .exhausted => if has_content then [] else defaultClose
  | .error e =>
      (if has_content then [] else [.contentBlockStop])
        ++ [.messageDelta "error" none, .messageStop,
            .errorFrame "internal_server_error" e]
  | .cancelled =>
      (if has_content then [] else [.contentBlockStop])
        ++ [.messageDelta "cancelled" none, .messageStop]

/-- The caller-visible outcome for each upstream termination: exceptions
are swallowed by the outer handler, cancellation is re-raised. -/
def endingOutcome : UpstreamEnd → Outcome
  | .exhausted => .normal
  | .error _ => .normal
  | .cancelled => .cancelled

/-- The texts carried by the `content_block_delta` frames of an emitted
frame list. -/
def deltaTextsOfFrames (fs : List Frame) : List String :=
  fs.filterMap fun f =>
    match f with
    | .contentBlockDelta t => some t
    | _ => none

/-- An upstream chunk of type `content_block_delta` carrying `text`. -/
def contentDeltaChunk (text : String) : Chunk :=
  .dict (some "content_block_delta") (some ⟨some text, none, none⟩)

/-- States of the frame-sequence automata used to state the grammar
claims. -/
inductive GState where
  | start : GState
  | opened : GState
  | block : GState
  | closedA : GState
  | deltaA : GState
  | afterCloseA : GState
  | closedB : GState
  | deltaB : GState
  | afterCloseB : GState
  | afterError : GState
  | accepted : GState
deriving DecidableEq, Repr

/-- Transition function of the grammar stated by the spec's invariant:
the language `message_start, content_block_start, (content_block_delta)*,
content_block_stop, message_delta, message_stop`. -/
def strictGrammarStep : GState → Frame → Option GState
  | .start, .messageStart _ _ => some .opened
  | .opened, .contentBlockStart => some .block
  | .block, .contentBlockDelta _ => some .block
  | .block, .contentBlockStop => some .closedA
  | .closedA, .messageDelta _ _ => some .deltaA
  | .deltaA, .messageStop => some .afterCloseA
  | _, _ => none

/-- Run a transition function over a frame list, failing on a frame with
no transition. -/
def runAutomaton (step : GState → Frame → Option GState) :
    GState → List Frame → Option GState
  | s, [] => some s
  | s, f :: fs =>
    match step s f with
    | none => none
    | some s' => runAutomaton step s' fs

/-- The property claimed by the spec's invariant: the emitted frames are a
word of the prefix-closure of the strict grammar, followed by exactly one
terminal done frame (so in particular no lifecycle frame repeats and
nothing follows the sentinel). -/
def spansStrictGrammar (fs : List Frame) : Prop :=
  fs.getLast? = some Frame.done ∧
    (runAutomaton strictGrammarStep .start fs.dropLast).isSome = true

instance (fs : List Frame) : Decidable (spansStrictGrammar fs) := by
  unfold spansStrictGrammar; infer_instance

/-- Transition function of the grammar the code actually guarantees:
`message_start, content_block_start, (content_block_delta)*` followed by
at most two closing groups — each `(content_block_stop)?, message_delta,
message_stop` — then optionally one error frame, then exactly one done
frame.  The A states walk the first closing group, the B states the
second. -/
def actualGrammarStep : GState → Frame → Option GState
  | .start, .messageStart _ _ => some .opened
  | .opened, .contentBlockStart => some .block
  | .block, .contentBlockDelta _ => some .block
  | .block, .contentBlockStop => some .closedA
  | .block, .messageDelta _ _ => some .deltaA
  | .block, .done => some .accepted
  | .closedA, .messageDelta _ _ => some .deltaA
  | .deltaA, .messageStop => some .afterCloseA
  | .afterCloseA, .contentBlockStop => some .closedB
  | .afterCloseA, .messageDelta _ _ => some .deltaB
  | .afterCloseA, .errorFrame _ _ => some .afterError
  | .afterCloseA, .done => some .accepted
  | .closedB, .messageDelta _ _ => some .deltaB
  | .deltaB, .messageStop => some .afterCloseB
  | .afterCloseB, .errorFrame _ _ => some .afterError
  | .afterCloseB, .done => some .accepted
  | .afterError, .done => some .accepted
  | _, _ => none

/-- Whether an SSE frame string begins with an `event:` line (all frames
built by `format_event`/`format_data_only` do; the done sentinel and a
hypothetical `data:`-only frame do not). -/
def hasEventPrologue (s : String) : Bool :=
  "event: ".data.isPrefixOf s.data

theorem drainLoop_no_break (cs : List Chunk) (hc : Bool) (e : UpstreamEnd)
    (h : hasNoMessageDelta cs = true) :
    drainLoop cs hc e =
      ((emittedDeltaTexts cs).map Frame.contentBlockDelta
         ++ endingTail (hc || !(emittedDeltaTexts cs).isEmpty) e,
       endingOutcome e) := by
  induction cs generalizing hc with
  | nil =>
      cases e <;> cases hc <;>
        simp [drainLoop, emittedDeltaTexts, endingTail, endingOutcome]
  | cons c rest ih =>
      simp only [hasNoMessageDelta, List.all_cons, Bool.and_eq_true] at h
      obtain ⟨h1, h2⟩ := h
      cases c with
      | nonDict =>
          simpa [drainLoop, emittedDeltaTexts] using ih hc h2
      | dict t d =>
          simp only [Chunk.isMessageDeltaType, Bool.not_eq_true'] at h1
          by_cases ht : t = some "content_block_delta"
          · subst ht
            by_cases htext : Chunk.deltaText (.dict (some "content_block_delta") d) = ""
            · simp [drainLoop, emittedDeltaTexts, htext, ih hc h2]
            · simp [drainLoop, emittedDeltaTexts, htext, ih true h2]
          · have hmd : ¬ t = some "message_delta" := by
              intro hcon; rw [hcon] at h1; simp at h1
            simp [drainLoop, emittedDeltaTexts, ht, hmd, ih hc h2]

theorem drainLoop_break (pre : List Chunk) (d : Option ChunkDelta) (rest : List Chunk)
    (hc : Bool) (e : UpstreamEnd) (h : hasNoMessageDelta pre = true) :
    drainLoop (pre ++ Chunk.dict (some "message_delta") d :: rest) hc e =
      ((emittedDeltaTexts pre).map Frame.contentBlockDelta
         ++ [Frame.contentBlockStop,
             Frame.messageDelta ((d.bind ChunkDelta.stop_reason).getD "end_turn")
                                (d.bind ChunkDelta.stop_sequence),
             Frame.messageStop]
         ++ (if hc || !(emittedDeltaTexts pre).isEmpty then [] else defaultClose),
       Outcome.normal) := by
  induction pre generalizing hc with
  | nil =>
      cases hc <;>
        simp [drainLoop, emittedDeltaTexts, Chunk.deltaStopReason, Chunk.deltaStopSequence]
  | cons c p ih =>
      simp only [hasNoMessageDelta, List.all_cons, Bool.and_eq_true] at h
      obtain ⟨h1, h2⟩ := h
      cases c with
      | nonDict =>
          simpa [drainLoop, emittedDeltaTexts] using ih hc h2
      | dict t d' =>
          simp only [Chunk.isMessageDeltaType, Bool.not_eq_true'] at h1
          by_cases ht : t = some "content_block_delta"
          · subst ht
            by_cases htext : Chunk.deltaText (.dict (some "content_block_delta") d') = ""
            · simp [drainLoop, emittedDeltaTexts, htext, ih hc h2]
            · simp [drainLoop, emittedDeltaTexts, htext, ih true h2]
          · have hmd : ¬ t = some "message_delta" := by
              intro hcon; rw [hcon] at h1; simp at h1
            simp [drainLoop, emittedDeltaTexts, ht, hmd, ih hc h2]

theorem drainLoop_done_not_mem (cs : List Chunk) (hc : Bool) (e : UpstreamEnd) :
    Frame.done ∉ (drainLoop cs hc e).1 := by
  induction cs generalizing hc with
  | nil =>
      cases e <;> cases hc <;> simp [drainLoop, defaultClose]
  | cons c rest ih =>
      cases c with
      | nonDict => simpa [drainLoop] using ih hc
      | dict t d =>
          by_cases ht : t = some "content_block_delta"
          · subst ht
            by_cases htext : Chunk.deltaText (.dict (some "content_block_delta") d) = ""
            · simpa [drainLoop, htext] using ih hc
            · simpa [drainLoop, htext] using ih true
          · by_cases hmd : t = some "message_delta"
            · subst hmd
              cases hc <;> simp [drainLoop, ht, defaultClose]
            · simpa [drainLoop, ht, hmd] using ih hc

theorem drainLoop_actualGrammar (cs : List Chunk) (hc : Bool) (e : UpstreamEnd) :
    runAutomaton actualGrammarStep .block ((drainLoop cs hc e).1 ++ [Frame.done])
      = some .accepted := by
  induction cs generalizing hc with
  | nil =>
      cases e <;> cases hc <;>
        simp [drainLoop, defaultClose, runAutomaton, actualGrammarStep]
  | cons c rest ih =>
      cases c with
      | nonDict => simpa [drainLoop] using ih hc
      | dict t d =>
          by_cases ht : t = some "content_block_delta"
          · subst ht
            by_cases htext : Chunk.deltaText (.dict (some "content_block_delta") d) = ""
            · simpa [drainLoop, htext] using ih hc
            · simpa [drainLoop, htext, runAutomaton, actualGrammarStep] using ih true
          · by_cases hmd : t = some "message_delta"
            · subst hmd
              cases hc <;> simp [drainLoop, ht, defaultClose, runAutomaton, actualGrammarStep]
            · simpa [drainLoop, ht, hmd] using ih hc

theorem format_data_only_ne_done (d : Json) :
    StreamingFormatter.format_data_only d ≠ StreamingFormatter.format_done := by
  intro h
  have h2 := congrArg (fun s => s.data.head?) h
  simp only [StreamingFormatter.format_data_only, StreamingFormatter.format_event,
    StreamingFormatter.format_done] at h2
  have h3 : ("event: " ++ StreamingFormatter.payloadEventType d ++ "\ndata: "
      ++ serializeJson d ++ "\n\n").data.head? = some 'e' := rfl
  rw [h3] at h2
  simp at h2

theorem renderFrame_eq_done_iff (f : Frame) :
    renderFrame f = StreamingFormatter.format_done ↔ f = Frame.done := by
  constructor
  · intro h
    cases f <;> first
      | rfl
      | exact absurd h (format_data_only_ne_done _)
  · rintro rfl; rfl

theorem count_done_map_renderFrame (l : List Frame) :
    (l.map renderFrame).count StreamingFormatter.format_done = l.count Frame.done := by
  induction l with
  | nil => rfl
  | cons f fs ih =>
      by_cases hf : f = Frame.done
      · subst hf; simp [List.count_cons, ih, renderFrame]
      · have hr : renderFrame f ≠ StreamingFormatter.format_done := fun h =>
          hf ((renderFrame_eq_done_iff f).mp h)
        simp [List.count_cons, ih, hf, hr]

theorem stream_getLast_done (input : StreamInput) (message_id model : String) :
    (stream_claude_response input message_id model).1.getLast? = some Frame.done := by
  cases input with
  | notAsyncIterable => rfl
  | upstream chunks ending =>
      show (Frame.messageStart message_id model :: Frame.contentBlockStart ::
        ((drainLoop chunks false ending).1 ++ [Frame.done])).getLast? = some Frame.done
      have h : Frame.messageStart message_id model :: Frame.contentBlockStart ::
          ((drainLoop chunks false ending).1 ++ [Frame.done])
          = (Frame.messageStart message_id model :: Frame.contentBlockStart ::
             (drainLoop chunks false ending).1) ++ [Frame.done] := by simp
      rw [h, List.getLast?_concat]

theorem stream_count_done (input : StreamInput) (message_id model : String) :
    (stream_claude_response input message_id model).1.count Frame.done = 1 := by
  cases input with
  | notAsyncIterable => rfl
  | upstream chunks ending =>
      show (Frame.messageStart message_id model :: Frame.contentBlockStart ::
        ((drainLoop chunks false ending).1 ++ [Frame.done])).count Frame.done = 1
      have h0 : (drainLoop chunks false ending).1.count Frame.done = 0 :=
        List.count_eq_zero.mpr (drainLoop_done_not_mem chunks false ending)
      simp [List.count_cons, List.count_append, h0]

/-- C1 (counterexample): on the upstream sequence consisting of one
`message_delta` chunk and nothing else, `has_content` is still false after
the `break`, so the post-loop default close runs a second time and the
emitted sequence repeats the closing triple — it is not a prefix of the
claimed grammar followed by the sentinel. -/
theorem claim_c1_counterexample :
    ¬ spansStrictGrammar
        (stream_claude_response
          (.upstream [Chunk.dict (some "message_delta") none] .exhausted)
          "msg_1" "claude-3").1 := by decide

/-- C1 (amended): for every upstream chunk sequence and termination, the
emitted frames are `message_start, content_block_start,
(content_block_delta)*`, then at most two closing groups — each an
optional `content_block_stop` followed by `message_delta, message_stop` —
then at most one error frame, then exactly one terminal done frame with
nothing after it. -/
theorem claim_c1_amended_grammar (chunks : List Chunk) (ending : UpstreamEnd)
    (message_id model : String) :
    runAutomaton actualGrammarStep .start
        (stream_claude_response (.upstream chunks ending) message_id model).1
      = some .accepted := by
  show runAutomaton actualGrammarStep .start
      (Frame.messageStart message_id model :: Frame.contentBlockStart ::
        ((drainLoop chunks false ending).1 ++ [Frame.done])) = some .accepted
  simpa [runAutomaton, actualGrammarStep] using drainLoop_actualGrammar chunks false ending

/-- C2: on every input and termination path the last emitted wire string
is exactly `"data: [DONE]\n\n"` and it occurs exactly once, including when
cancellation is propagating past the `finally` block. -/
theorem claim_c2_done_sentinel (input : StreamInput) (message_id model : String) :
    (wireOutput input message_id model).getLast? = some "data: [DONE]\n\n"
    ∧ (wireOutput input message_id model).count "data: [DONE]\n\n" = 1 := by
  constructor
  · show (List.map renderFrame (stream_claude_response input message_id model).1).getLast?
        = some "data: [DONE]\n\n"
    rw [List.getLast?_map, stream_getLast_done]
    rfl
  · show (List.map renderFrame (stream_claude_response input message_id model).1).count
        StreamingFormatter.format_done = 1
    rw [count_done_map_renderFrame, stream_count_done]

/-- C7: a non-async-iterable input produces exactly two frames — an
`internal_server_error` error frame whose message extends the substring
"Invalid response type", then the done sentinel — no `message_start` is
emitted and the caller sees no exception. -/
theorem claim_c7_invalid_input (message_id model : String) :
    stream_claude_response .notAsyncIterable message_id model
      = ([Frame.errorFrame "internal_server_error"
            "Invalid response type from Claude client", Frame.done], Outcome.normal)
    ∧ (∃ tail, "Invalid response type from Claude client" = "Invalid response type" ++ tail)
    ∧ ∀ f ∈ (stream_claude_response .notAsyncIterable message_id model).1,
        ∀ i m, f ≠ Frame.messageStart i m := by
  refine ⟨rfl, ⟨" from Claude client", rfl⟩, ?_⟩
  intro f hf i m
  have : f = Frame.errorFrame "internal_server_error"
      "Invalid response type from Claude client" ∨ f = Frame.done := by
    simpa [stream_claude_response] using hf
  rcases this with h | h <;> subst h <;> intro hcon <;> exact Frame.noConfusion hcon

/-- C10: `stream_anthropic_message_response` forwards every frame of
`stream_claude_response` unchanged and propagates the same outcome: the
two entry points are observationally equivalent. -/
theorem claim_c10_equivalence (input : StreamInput) (message_id model : String) :
    stream_anthropic_message_response input message_id model
      = stream_claude_response input message_id model := by
  have h : ∀ l : List Frame, forwardFrames l = l := by
    intro l
    induction l with
    | nil => rfl
    | cons f fs ih => simp [forwardFrames, ih]
  simp [stream_anthropic_message_response, h]

/-- C3 (counterexample): when the upstream raises a non-cancellation
exception during the drain, the re-raised exception is caught by the outer
`except Exception` handler and converted into an error frame — the caller
observes normal completion, not the propagated exception the claim
states. -/
theorem claim_c3_counterexample :
    (stream_claude_response (.upstream [] (.error "boom")) "msg_1" "claude-3").2
      = Outcome.normal
    ∧ Outcome.normal ≠ Outcome.raised "boom"
    ∧ Frame.errorFrame "internal_server_error" "boom"
        ∈ (stream_claude_response (.upstream [] (.error "boom")) "msg_1" "claude-3").1 := by
  refine ⟨rfl, by decide, by decide⟩

/-- C3 (amended): on a non-cancellation upstream exception during the
drain, the generator yields `content_block_stop` only if no content frame
was sent, then `message_delta` with stop reason "error", `message_stop`,
then one `internal_server_error` error frame carrying the exception's
message (the outer handler swallows the exception), then the done
sentinel; the caller observes normal completion, and no exception
propagates. -/
theorem claim_c3_amended_error_swallowed (cs : List Chunk) (e message_id model : String)
    (h : hasNoMessageDelta cs = true) :
    stream_claude_response (.upstream cs (.error e)) message_id model
      = (Frame.messageStart message_id model :: Frame.contentBlockStart ::
          ((emittedDeltaTexts cs).map Frame.contentBlockDelta
            ++ (if (emittedDeltaTexts cs).isEmpty then [Frame.contentBlockStop] else [])
            ++ [Frame.messageDelta "error" none, Frame.messageStop,
                Frame.errorFrame "internal_server_error" e, Frame.done]),
         Outcome.normal) := by
  cases hE : (emittedDeltaTexts cs).isEmpty <;>
    simp [stream_claude_response, drainLoop_no_break cs false _ h,
      endingTail, endingOutcome, hE]

/-- Witness for C3 (amended) at a concrete input with one content chunk. -/
theorem claim_c3_witness :
    hasNoMessageDelta [contentDeltaChunk "Hi"] = true
    ∧ stream_claude_response (.upstream [contentDeltaChunk "Hi"] (.error "boom"))
        "msg_w" "claude"
      = ([Frame.messageStart "msg_w" "claude", Frame.contentBlockStart,
          Frame.contentBlockDelta "Hi", Frame.messageDelta "error" none,
          Frame.messageStop, Frame.errorFrame "internal_server_error" "boom",
          Frame.done], Outcome.normal) :=
  ⟨rfl, by
    rw [claim_c3_amended_error_swallowed [contentDeltaChunk "Hi"] "boom" "msg_w" "claude" rfl]
    decide⟩

/-- C4 (counterexample): if the upstream exhausts after a non-empty
content delta, `has_content` is true and the post-loop close is skipped:
the emitted tail is just the sentinel, the stream ends mid-block, and no
`content_block_stop` is ever emitted — contradicting the claimed tail. -/
theorem claim_c4_counterexample :
    (stream_claude_response (.upstream [contentDeltaChunk "Hi"] .exhausted)
        "msg_1" "claude-3").1
      = [Frame.messageStart "msg_1" "claude-3", Frame.contentBlockStart,
         Frame.contentBlockDelta "Hi", Frame.done]
    ∧ Frame.contentBlockStop
        ∉ (stream_claude_response (.upstream [contentDeltaChunk "Hi"] .exhausted)
            "msg_1" "claude-3").1 := by
  refine ⟨by decide, by decide⟩

/-- C4 (amended): if the upstream exhausts without any `message_delta`
chunk and without any content frame having been emitted, the stream is
closed with `content_block_stop`, `message_delta` with stop reason
"end_turn" and null stop sequence, `message_stop`, then the sentinel.
(When a content frame was emitted the code skips the close entirely.) -/
theorem claim_c4_amended_default_close (cs : List Chunk) (message_id model : String)
    (h1 : hasNoMessageDelta cs = true) (h2 : emittedDeltaTexts cs = []) :
    stream_claude_response (.upstream cs .exhausted) message_id model
      = ([Frame.messageStart message_id model, Frame.contentBlockStart,
          Frame.contentBlockStop, Frame.messageDelta "end_turn" none,
          Frame.messageStop, Frame.done], Outcome.normal) := by
  simp [stream_claude_response, drainLoop_no_break cs false _ h1, h2,
    endingTail, endingOutcome, defaultClose]

/-- Witness for C4 (amended) at a concrete input: one skipped non-dict
chunk and one content chunk whose text is empty. -/
theorem claim_c4_witness :
    (hasNoMessageDelta [Chunk.nonDict, contentDeltaChunk ""] = true
      ∧ emittedDeltaTexts [Chunk.nonDict, contentDeltaChunk ""] = [])
    ∧ stream_claude_response (.upstream [Chunk.nonDict, contentDeltaChunk ""] .exhausted)
        "msg_w" "claude"
      = ([Frame.messageStart "msg_w" "claude", Frame.contentBlockStart,
          Frame.contentBlockStop, Frame.messageDelta "end_turn" none,
          Frame.messageStop, Frame.done], Outcome.normal) :=
  ⟨⟨rfl, rfl⟩,
    claim_c4_amended_default_close [Chunk.nonDict, contentDeltaChunk ""] "msg_w" "claude"
      rfl rfl⟩

/-- C5: when cancellation interrupts the drain, the generator emits
`content_block_stop` only if no content frame was sent, then
`message_delta` with stop reason "cancelled", `message_stop`, then the
done sentinel, and the cancellation is re-raised so the caller observes it
after consuming the frames. -/
theorem claim_c5_cancellation (cs : List Chunk) (message_id model : String)
    (h : hasNoMessageDelta cs = true) :
    stream_claude_response (.upstream cs .cancelled) message_id model
      = (Frame.messageStart message_id model :: Frame.contentBlockStart ::
          ((emittedDeltaTexts cs).map Frame.contentBlockDelta
            ++ (if (emittedDeltaTexts cs).isEmpty then [Frame.contentBlockStop] else [])
            ++ [Frame.messageDelta "cancelled" none, Frame.messageStop, Frame.done]),
         Outcome.cancelled) := by
  cases hE : (emittedDeltaTexts cs).isEmpty <;>
    simp [stream_claude_response, drainLoop_no_break cs false _ h,
      endingTail, endingOutcome, hE]

/-- Witness for C5 at a concrete input: cancellation after one delta
chunk, as in the spec's testable property. -/
theorem claim_c5_witness :
    hasNoMessageDelta [contentDeltaChunk "Hello"] = true
    ∧ stream_claude_response (.upstream [contentDeltaChunk "Hello"] .cancelled)
        "msg_w" "claude"
      = ([Frame.messageStart "msg_w" "claude", Frame.contentBlockStart,
          Frame.contentBlockDelta "Hello", Frame.messageDelta "cancelled" none,
          Frame.messageStop, Frame.done], Outcome.cancelled) :=
  ⟨rfl, by
    rw [claim_c5_cancellation [contentDeltaChunk "Hello"] "msg_w" "claude" rfl]
    decide⟩
/-- C6: a `message_delta` chunk closes the message with
`content_block_stop`, a `message_delta` frame carrying the chunk's
`delta.stop_reason` (default "end_turn") and `delta.stop_sequence`
(default null) verbatim, and `message_stop`, and stops draining: the
output is identical to the run in which the remaining chunks and the
upstream's eventual termination do not exist.  (When no content frame was
sent, the post-loop default close still runs after the break.) -/
theorem claim_c6_explicit_close (pre rest : List Chunk) (d : Option ChunkDelta)
    (ending : UpstreamEnd) (message_id model : String)
    (h : hasNoMessageDelta pre = true) :
    stream_claude_response
        (.upstream (pre ++ Chunk.dict (some "message_delta") d :: rest) ending)
        message_id model
      = (Frame.messageStart message_id model :: Frame.contentBlockStart ::
          ((emittedDeltaTexts pre).map Frame.contentBlockDelta
            ++ [Frame.contentBlockStop,
                Frame.messageDelta ((d.bind ChunkDelta.stop_reason).getD "end_turn")
                                   (d.bind ChunkDelta.stop_sequence),
                Frame.messageStop]
            ++ (if (emittedDeltaTexts pre).isEmpty then defaultClose else [])
            ++ [Frame.done]),
         Outcome.normal)
    ∧ stream_claude_response
        (.upstream (pre ++ Chunk.dict (some "message_delta") d :: rest) ending)
        message_id model
      = stream_claude_response
          (.upstream (pre ++ [Chunk.dict (some "message_delta") d]) .exhausted)
          message_id model := by
  have hshape : ∀ (r : List Chunk) (en : UpstreamEnd),
      stream_claude_response
          (.upstream (pre ++ Chunk.dict (some "message_delta") d :: r) en)
          message_id model
        = (Frame.messageStart message_id model :: Frame.contentBlockStart ::
            ((emittedDeltaTexts pre).map Frame.contentBlockDelta
              ++ [Frame.contentBlockStop,
                  Frame.messageDelta ((d.bind ChunkDelta.stop_reason).getD "end_turn")
                                     (d.bind ChunkDelta.stop_sequence),
                  Frame.messageStop]
              ++ (if (emittedDeltaTexts pre).isEmpty then defaultClose else [])
              ++ [Frame.done]),
           Outcome.normal) := by
    intro r en
    cases hE : (emittedDeltaTexts pre).isEmpty <;>
      simp [stream_claude_response, drainLoop_break pre d r false en h, hE]
  exact ⟨hshape rest ending, (hshape rest ending).trans (hshape [] .exhausted).symm⟩

/-- Witness for C6 at a concrete input: a `max_tokens` stop reason is
carried verbatim, a later chunk is never consumed, and a cancelling
upstream termination is never observed. -/
theorem claim_c6_witness :
    hasNoMessageDelta [contentDeltaChunk "Hi"] = true
    ∧ stream_claude_response
        (.upstream ([contentDeltaChunk "Hi"]
            ++ Chunk.dict (some "message_delta") (some ⟨none, some "max_tokens", none⟩)
              :: [contentDeltaChunk "LATER"]) .cancelled)
        "msg_w" "claude"
      = ([Frame.messageStart "msg_w" "claude", Frame.contentBlockStart,
          Frame.contentBlockDelta "Hi", Frame.contentBlockStop,
          Frame.messageDelta "max_tokens" none, Frame.messageStop, Frame.done],
         Outcome.normal) :=
  ⟨rfl, by
    rw [(claim_c6_explicit_close [contentDeltaChunk "Hi"] [contentDeltaChunk "LATER"]
          (some ⟨none, some "max_tokens", none⟩) .cancelled "msg_w" "claude" rfl).1]
    decide⟩

theorem hasNoMessageDelta_map_contentDelta (ts : List String) :
    hasNoMessageDelta (ts.map contentDeltaChunk) = true := by
  induction ts with
  | nil => rfl
  | cons t ts ih =>
      simp only [List.map_cons, hasNoMessageDelta, List.all_cons, Bool.and_eq_true]
      exact ⟨rfl, by simpa [hasNoMessageDelta] using ih⟩

theorem emittedDeltaTexts_map_contentDelta (ts : List String) :
    emittedDeltaTexts (ts.map contentDeltaChunk) = ts.filter (fun t => t ≠ "") := by
  induction ts with
  | nil => rfl
  | cons t ts ih =>
      by_cases ht : t = ""
      · subst ht
        simpa [emittedDeltaTexts, contentDeltaChunk, Chunk.deltaText] using ih
      · simpa [emittedDeltaTexts, contentDeltaChunk, Chunk.deltaText, ht] using ih


theorem deltaTextsOfFrames_append (l1 l2 : List Frame) :
    deltaTextsOfFrames (l1 ++ l2) = deltaTextsOfFrames l1 ++ deltaTextsOfFrames l2 :=
  List.filterMap_append l1 l2 _

theorem deltaTextsOfFrames_map_delta (xs : List String) :
    deltaTextsOfFrames (xs.map Frame.contentBlockDelta) = xs := by
  induction xs with
  | nil => rfl
  | cons x xs ih => simpa [deltaTextsOfFrames] using ih

theorem deltaTextsOfFrames_endingTail (hc : Bool) (e : UpstreamEnd) :
    deltaTextsOfFrames (endingTail hc e) = [] := by
  cases e <;> cases hc <;> rfl

/-- C8 (counterexample): a `content_block_delta` chunk whose `delta.text`
is the empty string is dropped by the `if text:` guard, so the emitted
delta frames do not carry the upstream texts verbatim when one of them is
empty. -/
theorem claim_c8_counterexample :
    deltaTextsOfFrames
        (stream_claude_response (.upstream [contentDeltaChunk ""] .exhausted)
          "msg_1" "claude-3").1
      ≠ [""] := by decide

/-- C8 (amended): for an upstream of `content_block_delta` chunks carrying
texts `t1..tN`, the emitted delta frames carry exactly the non-empty
texts among `t1..tN`, in the same order, verbatim — empty texts are
dropped, nothing else is merged, reordered or lost. -/
theorem claim_c8_amended_text_fidelity (ts : List String) (message_id model : String) :
    deltaTextsOfFrames
        (stream_claude_response (.upstream (ts.map contentDeltaChunk) .exhausted)
          message_id model).1
      = ts.filter (fun t => t ≠ "") := by
  have h := drainLoop_no_break (ts.map contentDeltaChunk) false .exhausted
    (hasNoMessageDelta_map_contentDelta ts)
  rw [emittedDeltaTexts_map_contentDelta] at h
  show deltaTextsOfFrames (Frame.messageStart message_id model :: Frame.contentBlockStart ::
      ((drainLoop (ts.map contentDeltaChunk) false .exhausted).1 ++ [Frame.done])) = _
  rw [h]
  simp only [deltaTextsOfFrames, List.filterMap_cons]
  rw [← deltaTextsOfFrames, deltaTextsOfFrames_append, deltaTextsOfFrames_append,
    deltaTextsOfFrames_map_delta, deltaTextsOfFrames_endingTail]
  simp [deltaTextsOfFrames]
/-- C9 (counterexample): `format_error` routes its payload through
`format_data_only`, and the error payload has no top-level `type` key, so
the produced frame starts with an `event: unknown` line — it is not a
`data:`-only frame, and the "unknown" default is exercised. -/
theorem claim_c9_counterexample :
    hasEventPrologue (StreamingFormatter.format_error "internal_server_error" "test") = true
    ∧ StreamingFormatter.format_error "internal_server_error" "test"
      = "event: unknown\ndata: \x7b\"error\":\x7b\"type\":\"internal_server_error\",\"message\":\"test\"\x7d\x7d\n\n" :=
  ⟨rfl, rfl⟩

/-- C9 (amended): for every error type and message, `format_error`
produces the `format_data_only` frame of the payload
`{"error":{"type":..,"message":..}}`, whose event line is the `"unknown"`
default (the payload has no top-level `type` key), so every error frame
does carry an `event:` line. -/
theorem claim_c9_amended_event_unknown (error_type message : String) :
    StreamingFormatter.format_error error_type message
      = StreamingFormatter.format_event "unknown"
          (StreamingFormatter.streamingErrorDump error_type message)
    ∧ hasEventPrologue (StreamingFormatter.format_error error_type message) = true :=
  ⟨rfl, rfl⟩
